import Mathlib

/-!
Verification development for the dependency scraping pipeline
(scraper.py): a one-shot ETL utility that loads dependency records
from a spreadsheet, scrapes a versions table for each record, formats
the scraped fields, and writes the results to a JSON file and back to
the spreadsheet.

Shallow embedding conventions:
* Spreadsheet cells and record fields are modelled by the type
  Value: a string, the float NaN sentinel used by pandas for missing
  cells, or a datetime (year, month, day at midnight) as produced by
  datetime.strptime.
* Python dicts keyed by strings are modelled as association lists
  with insert-replaces-existing-key semantics (pyInsert), matching
  dict assignment; lookup raises KeyError on a missing key, modelled
  by Option / Except.
* The browser and network are modelled by a function
  world : Nat -> PageResult giving, for each record index, either a
  navigation or element-lookup failure, or the headers and first-row
  cells of the versions table on that page (each cell optionally
  unreadable, in which case the code substitutes empty text).
* Fallible Python code is modelled in Except PyError; an uncaught
  exception is an .error result.
* File and console output are abstracted: write_json returns the
  target file name and the record list it serializes (which, because
  the source copies only the outer list, is also the state of the
  records the caller holds after the call); write_excel returns the
  new sheet title and the list of cell writes (row, column, value).
-/

deriving instance DecidableEq for Except

namespace DDSC

/-- A Python value that can sit in a record field or spreadsheet cell:
a string, the float NaN used for missing cells, or a datetime at
midnight (from datetime.strptime). -/
inductive Value where
  | str (s : String)
  | nan
  | date (y m d : Nat)
deriving DecidableEq, Repr, Inhabited

/-- One dependency record, as built by load_excel: the dict with keys
library, vulnerabilities, date, url. -/
structure DepRecord where
  library : Value
  vulnerabilities : Value
  date : Value
  url : Value
deriving DecidableEq, Repr

instance : Inhabited DepRecord := ⟨⟨Value.nan, Value.nan, Value.nan, Value.nan⟩⟩

/-- Kinds of uncaught Python exceptions that the pipeline can raise. -/
inductive PyError where
  | nameError
  | keyError
  | valueError
  | indexError
  | attributeError
  | typeError
deriving DecidableEq, Repr

/-! ## Python string primitives -/

/-- Python str.split(sep) for a one-character separator: splits on
every occurrence, keeping empty pieces; the result is never empty. -/
def splitOnChar (sep : Char) : List Char → List (List Char)
  | [] => [[]]
  | c :: rest =>
    let r := splitOnChar sep rest
    if c = sep then [] :: r
    else
      match r with
      | [] => [[c]]
      | h :: t => (c :: h) :: t

/-- Python str.split(sep) on strings. -/
def pySplit (s : String) (sep : Char) : List String :=
  (splitOnChar sep s.toList).map String.mk

/-- Helper for whitespace splitting: cur is the current token,
reversed. -/
def splitWsAux : List Char → List Char → List (List Char)
  | [], cur => if cur.isEmpty then [] else [cur.reverse]
  | c :: rest, cur =>
    if c.isWhitespace then
      if cur.isEmpty then splitWsAux rest []
      else cur.reverse :: splitWsAux rest []
    else splitWsAux rest (c :: cur)

/-- Python str.split() with no separator: split on whitespace runs,
dropping empty tokens. -/
def pySplitWs (s : String) : List String :=
  (splitWsAux s.toList []).map String.mk

/-! ## datetime.strptime with the fixed pattern "%b %d, %Y" -/

/-- Lowercased month abbreviations recognised by %b in the C locale. -/
def monthAbbrevs : List String :=
  ["jan", "feb", "mar", "apr", "may", "jun",
   "jul", "aug", "sep", "oct", "nov", "dec"]

/-- Digits to a natural number, most significant first. -/
def digitsToNat (cs : List Char) : Nat :=
  cs.foldl (fun a c => a * 10 + (c.toNat - 48)) 0

/-- Gregorian leap year, as used by datetime. -/
def isLeap (y : Nat) : Bool :=
  y % 4 = 0 && (y % 100 != 0 || y % 400 = 0)

/-- Number of days in a month, as validated by the datetime
constructor. -/
def daysInMonth (y m : Nat) : Nat :=
  if m = 2 then (if isLeap y then 29 else 28)
  else if m = 4 || m = 6 || m = 9 || m = 11 then 30
  else 31

/-- The %d field of strptime: one digit 1-9, or two digits 01-31
(00 is rejected by the pattern, larger two-digit values fail because
the leftover digit cannot match the literal comma). -/
def dayDigitsOk (ds : List Char) : Bool :=
  (ds.length = 1 && 1 ≤ digitsToNat ds) ||
  (ds.length = 2 && ds ≠ ['0', '0'] && digitsToNat ds ≤ 31)

/-- datetime.strptime(s, "%b %d, %Y"): case-insensitive month
abbreviation, at least one whitespace, a 1-2 digit day, a literal
comma, at least one whitespace, exactly four year digits, end of
input; the resulting date is validated (day in range for the month,
year at least 1). Returns (year, month, day) or none on mismatch,
which the Python code surfaces as an uncaught ValueError. -/
def strptimeBDY (s : String) : Option (Nat × Nat × Nat) :=
  let cs := s.toList
  let monTok := String.mk ((cs.take 3).map Char.toLower)
  match monthAbbrevs.findIdx? (fun a => a = monTok) with
  | none => none
  | some mi =>
    let r1 := cs.drop 3
    if (r1.takeWhile (fun c => c.isWhitespace)).isEmpty then none
    else
      let r2 := r1.dropWhile (fun c => c.isWhitespace)
      let ds := r2.takeWhile (fun c => c.isDigit)
      let r3 := r2.dropWhile (fun c => c.isDigit)
      if ¬ dayDigitsOk ds then none
      else
        match r3 with
        | ',' :: r4 =>
          if (r4.takeWhile (fun c => c.isWhitespace)).isEmpty then none
          else
            let r5 := r4.dropWhile (fun c => c.isWhitespace)
            let ys := r5.takeWhile (fun c => c.isDigit)
            let r6 := r5.dropWhile (fun c => c.isDigit)
            if ys.length = 4 ∧ r6 = [] then
              let y := digitsToNat ys
              let d := digitsToNat ds
              if 1 ≤ y ∧ d ≤ daysInMonth y (mi + 1) then
                some (y, mi + 1, d)
              else none
            else none
        | _ => none

/-! ## The three field formatters (normalizer) -/

/-- formatLibrary(libName, versionNumber): NaN for an empty or missing
name; otherwise split the name on hyphens, join all tokens but the
last without separators, take the extension from the final
dot-delimited segment of the last token, and build
base-version.extension. A datetime argument would hit str methods and
raise AttributeError. -/
def formatLibrary (libName : Value) (versionNumber : String) :
    Except PyError Value :=
  match libName with
  | Value.nan => Except.ok Value.nan
  | Value.str s =>
    if s = "" then Except.ok Value.nan
    else
      let libNameList := pySplit s '-'
      let extension := (pySplit (libNameList.getLastD "") '.').getLastD ""
      Except.ok (Value.str
        (String.join libNameList.dropLast ++ "-" ++ versionNumber
          ++ "." ++ extension))
  | Value.date _ _ _ => Except.error PyError.attributeError

/-- formatVulnerability(vulnerabilitiesString): NaN for an empty or
missing value; otherwise the first whitespace-delimited token.
Indexing [0] on the empty token list raises IndexError. -/
def formatVulnerability (v : Value) : Except PyError Value :=
  match v with
  | Value.nan => Except.ok Value.nan
  | Value.str s =>
    if s = "" then Except.ok Value.nan
    else
      match pySplitWs s with
      | [] => Except.error PyError.indexError
      | t :: _ => Except.ok (Value.str t)
  | Value.date _ _ _ => Except.error PyError.attributeError

/-- formatDate(dateString): NaN for an empty or missing value;
otherwise datetime.strptime with the fixed pattern "%b %d, %Y"; a
mismatch raises ValueError (the ParseError of the spec), uncaught. -/
def formatDate (v : Value) : Except PyError Value :=
  match v with
  | Value.nan => Except.ok Value.nan
  | Value.str s =>
    if s = "" then Except.ok Value.nan
    else
      match strptimeBDY s with
      | some ymd => Except.ok (Value.date ymd.1 ymd.2.1 ymd.2.2)
      | none => Except.error PyError.valueError
  | Value.date _ _ _ => Except.error PyError.typeError

/-! ## load_excel -/

/-- One record from one raw sheet row: the source crops the window
df.iloc[_, 5:12] and reads window columns 0, 1, 3, 5, which are
0-based sheet columns 5, 6, 8, 10. Cells absent from a short row are
NaN, matching the padding pandas applies to ragged sheets. -/
def mkDep (row : List Value) : DepRecord :=
  let cropped := (row.drop 5).take 7
  { library := cropped.getD 0 Value.nan
    vulnerabilities := cropped.getD 1 Value.nan
    date := cropped.getD 3 Value.nan
    url := cropped.getD 5 Value.nan }

/-- load_excel: pd.read_excel consumes sheet row 0 as the dataframe
header, then df.iloc[1:, 5:12] drops the first dataframe row (sheet
row 1) as well, so records are built from sheet rows 2 onward, in
order. -/
def load_excel (sheet : List (List Value)) : List DepRecord :=
  let df := sheet.drop 1
  let cropped := df.drop 1
  cropped.map mkDep

/-! ## scrape_data: the per-record browser loop -/

/-- What the browser finds at one URL: either a failure during
navigation or element lookup, or the header labels of the versions
table together with the first-row cells (a cell is none when reading
its text raises, in which case the code substitutes empty text). -/
inductive PageResult where
  | navFail
  | page (headers : List String) (cells : List (Option String))
deriving DecidableEq, Repr

/-- Browser lifecycle events of the scrape loop: for record i,
webdriver.Chrome() is a launch and driver.close() in the finally
block is a close. -/
inductive Ev where
  | launch (i : Nat)
  | close (i : Nat)
deriving DecidableEq, Repr

/-- The default row data the except branch substitutes on a
per-record failure. -/
def defaultRow : List (String × String) :=
  [("Version", ""), ("Vulnerabilities", ""), ("Date", "")]

/-- Python dict assignment d[k] = v: replace the value of an existing
key in place, else append the new pair. -/
def pyInsert (d : List (String × String)) (k v : String) :
    List (String × String) :=
  if d.any (fun p => p.1 = k) then
    d.map (fun p => if p.1 = k then (k, v) else p)
  else d ++ [(k, v)]

/-- Python dict lookup d[k], none when the key is missing. -/
def pyGet (d : List (String × String)) (k : String) : Option String :=
  (d.find? (fun p => p.1 = k)).map (fun p => p.2)

/-- cell.text with the per-cell try/except that substitutes empty
text when reading fails. -/
def readCell (c : Option String) : String := c.getD ""

/-- The rowData dict built by pairing each cell positionally with the
header label of the same index. -/
def buildRow (headers : List String) (vals : List String) :
    List (String × String) :=
  (headers.zip vals).foldl (fun acc p => pyInsert acc p.1 p.2) []

/-- Dict assignment for the failed_url dict (Nat keys). -/
def pyInsertNat (d : List (Nat × Value)) (k : Nat) (v : Value) :
    List (Nat × Value) :=
  if d.any (fun p => p.1 = k) then
    d.map (fun p => if p.1 = k then (k, v) else p)
  else d ++ [(k, v)]

/-- Fold an optional failure entry into the failed_url dict. -/
def insertFail (acc : List (Nat × Value)) :
    Option (Nat × Value) → List (Nat × Value)
  | none => acc
  | some kv => pyInsertNat acc kv.1 kv.2

/-- The body of one iteration of the scrape loop, between launch and
close: on a navigation or element-lookup failure the except branch
records the default row and logs the URL under the loop index i; on a
page whose first row has more cells than headers, the pairing loop
raises IndexError at inner index headers.length, which the same
except branch catches — but that inner loop variable shadows the
outer i, so the URL is logged under headers.length; otherwise the
paired rowData is kept and nothing is logged. -/
def scrapeOne (i : Nat) (dep : DepRecord) (pr : PageResult) :
    (List (String × String)) × Option (Nat × Value) :=
  match pr with
  | PageResult.navFail => (defaultRow, some (i, dep.url))
  | PageResult.page headers cells =>
    if cells.length ≤ headers.length then
      (buildRow headers (cells.map readCell), none)
    else
      (defaultRow, some (headers.length, dep.url))

/-- The scrape loop with its accumulators: collected first rows, the
failed_url dict, and the browser lifecycle trace. -/
def scrapeAux (w : Nat → PageResult) :
    Nat → List DepRecord → List (List (String × String)) →
    List (Nat × Value) → List Ev →
    List (List (String × String)) × List (Nat × Value) × List Ev
  | _, [], rows, fails, evs => (rows, fails, evs)
  | i, d :: ds, rows, fails, evs =>
    let pr := scrapeOne i d (w i)
    scrapeAux w (i + 1) ds (rows ++ [pr.1]) (insertFail fails pr.2)
      (evs ++ [Ev.launch i, Ev.close i])

/-- The first half of scrape_data: the loop over all records. -/
def scrapePhase (deps : List DepRecord) (w : Nat → PageResult) :
    List (List (String × String)) × List (Nat × Value) × List Ev :=
  scrapeAux w 0 deps [] [] []

/-- The body of one iteration of the formatting loop: the three plain
dict lookups row[Version], row[Date], row[Vulnerabilities] (KeyError
when missing, uncaught), then the three formatters, then the in-place
field updates; url is not assigned. -/
def normalizeOne (d : DepRecord) (r : List (String × String)) :
    Except PyError DepRecord :=
  match pyGet r "Version" with
  | none => Except.error PyError.keyError
  | some versionNumber =>
    match pyGet r "Date" with
    | none => Except.error PyError.keyError
    | some dateString =>
      match pyGet r "Vulnerabilities" with
      | none => Except.error PyError.keyError
      | some vulnerabilitiesString =>
        match formatLibrary d.library versionNumber with
        | Except.error e => Except.error e
        | Except.ok formatedVersion =>
          match formatVulnerability (Value.str vulnerabilitiesString) with
          | Except.error e => Except.error e
          | Except.ok formatedVulnerability =>
            match formatDate (Value.str dateString) with
            | Except.error e => Except.error e
            | Except.ok formatedDate =>
              Except.ok { d with
                date := formatedDate
                library := formatedVersion
                vulnerabilities := formatedVulnerability }

/-- The formatting loop over all records, paired by index with the
collected first rows; an index past the end of the row list would be
an uncaught IndexError. -/
def formatPhase :
    List DepRecord → List (List (String × String)) →
    Except PyError (List DepRecord)
  | [], _ => Except.ok []
  | _ :: _, [] => Except.error PyError.indexError
  | d :: ds, r :: rs =>
    match normalizeOne d r with
    | Except.error e => Except.error e
    | Except.ok d2 =>
      match formatPhase ds rs with
      | Except.error e => Except.error e
      | Except.ok rest => Except.ok (d2 :: rest)

/-- scrape_data: the scrape loop, then driver.quit() — which raises an
uncaught NameError when the loop body never ran, because the driver
variable is only bound inside the loop — then the formatting loop.
Returns the updated records, the failed_url dict, and the browser
lifecycle trace. -/
def scrape_data (deps : List DepRecord) (world : Nat → PageResult) :
    Except PyError (List DepRecord × List (Nat × Value) × List Ev) :=
  let rows := (scrapePhase deps world).1
  let fails := (scrapePhase deps world).2.1
  let evs := (scrapePhase deps world).2.2
  match deps with
  | [] => Except.error PyError.nameError
  | _ :: _ =>
    match formatPhase deps rows with
    | Except.error e => Except.error e
    | Except.ok out => Except.ok (out, fails, evs)

/-! ## write_json, write_excel, run -/

/-- datetime.isoformat for the midnight datetimes strptime produces. -/
def pad2 (n : Nat) : String :=
  if n < 10 then "0" ++ toString n else toString n

/-- Four-digit zero padding for the year. -/
def pad4 (n : Nat) : String :=
  if n < 10 then "000" ++ toString n
  else if n < 100 then "00" ++ toString n
  else if n < 1000 then "0" ++ toString n
  else toString n

/-- datetime(y, m, d).isoformat(). -/
def isoformat (y m d : Nat) : String :=
  pad4 y ++ "-" ++ pad2 m ++ "-" ++ pad2 d ++ "T00:00:00"

/-- The per-value serialization write_json applies in place to each
dict value: NaN becomes the empty string, a datetime becomes its
ISO-8601 string, any other value is left unchanged. -/
def serializeValue : Value → Value
  | Value.nan => Value.str ""
  | Value.date y m d => Value.str (isoformat y m d)
  | Value.str s => Value.str s

/-- serializeValue applied to every field of a record dict. -/
def serializeRecord (d : DepRecord) : DepRecord :=
  { library := serializeValue d.library
    vulnerabilities := serializeValue d.vulnerabilities
    date := serializeValue d.date
    url := serializeValue d.url }

/-- write_json: builds the file name from the current date (passed
here as the already formatted YYYYMMDD string), copies only the outer
list (dep_copy = dependencies[:]) and rewrites every dict value in
place, so the returned record list is also the state of the records
the caller still holds; the JSON text dumped to the file is the
rendering of exactly this list. -/
def write_json (today : String) (deps : List DepRecord) :
    String × List DepRecord :=
  (today ++ "_dependencies.json", deps.map serializeRecord)

/-- The cell writes of the write loop: rows are enumerated from 3
(1-based openpyxl rows), columns 6, 7, 9 get library,
vulnerabilities, date. -/
def excelRows : Nat → List DepRecord → List (Nat × Nat × Value)
  | _, [] => []
  | r, d :: ds =>
    (r, 6, d.library) :: (r, 7, d.vulnerabilities) ::
      (r, 9, d.date) :: excelRows (r + 1) ds

/-- write_excel: duplicates the first sheet under the title
t{YYYYMMDD} and populates it; modelled by the new sheet title and the
list of cell writes. -/
def write_excel (today : String) (deps : List DepRecord) :
    String × List (Nat × Nat × Value) :=
  ("t" ++ today, excelRows 3 deps)

/-- run: load, scrape, write JSON, write the spreadsheet. Because
write_json mutates the shared record dicts, the records handed to
write_excel are the list write_json returns, not the list scrape_data
produced. -/
def run (sheet : List (List Value)) (world : Nat → PageResult)
    (today : String) :
    Except PyError
      ((String × List DepRecord) × (String × List (Nat × Nat × Value))) :=
  match scrape_data (load_excel sheet) world with
  | Except.error e => Except.error e
  | Except.ok (deps2, _, _) =>
    let j := write_json today deps2
    Except.ok (j, write_excel today j.2)

/-! ## Characterization lemmas for the scrape loop -/

/-- The first rows collected by the loop, one per record. -/
def rowsSpec (w : Nat → PageResult) :
    Nat → List DepRecord → List (List (String × String))
  | _, [] => []
  | i, d :: ds => (scrapeOne i d (w i)).1 :: rowsSpec w (i + 1) ds

/-- The failed_url dict accumulated by the loop. -/
def failsSpec (w : Nat → PageResult) :
    Nat → List DepRecord → List (Nat × Value) → List (Nat × Value)
  | _, [], acc => acc
  | i, d :: ds, acc =>
    failsSpec w (i + 1) ds (insertFail acc (scrapeOne i d (w i)).2)

/-- The browser lifecycle trace of the loop. -/
def evsSpec : Nat → List DepRecord → List Ev
  | _, [] => []
  | i, _ :: ds => Ev.launch i :: Ev.close i :: evsSpec (i + 1) ds

lemma scrapeAux_eq (w : Nat → PageResult) :
    ∀ (ds : List DepRecord) (i : Nat) rows fails evs,
      scrapeAux w i ds rows fails evs =
        (rows ++ rowsSpec w i ds, failsSpec w i ds fails,
          evs ++ evsSpec i ds) := by
  intro ds
  induction ds with
  | nil =>
    intro i rows fails evs
    simp [scrapeAux, rowsSpec, failsSpec, evsSpec]
  | cons d ds ih =>
    intro i rows fails evs
    simp [scrapeAux, rowsSpec, failsSpec, evsSpec, ih]

lemma scrapePhase_eq (deps : List DepRecord) (w : Nat → PageResult) :
    scrapePhase deps w =
      (rowsSpec w 0 deps, failsSpec w 0 deps [], evsSpec 0 deps) := by
  simp [scrapePhase, scrapeAux_eq]

lemma rowsSpec_length (w : Nat → PageResult) :
    ∀ (ds : List DepRecord) (i : Nat),
      (rowsSpec w i ds).length = ds.length := by
  intro ds
  induction ds with
  | nil => intro i; simp [rowsSpec]
  | cons d ds ih => intro i; simp [rowsSpec, ih]

lemma rowsSpec_getD (w : Nat → PageResult) :
    ∀ (ds : List DepRecord) (i j : Nat), j < ds.length →
      (rowsSpec w i ds).getD j [] =
        (scrapeOne (i + j) (ds.getD j default) (w (i + j))).1 := by
  intro ds
  induction ds with
  | nil => intro i j hj; simp at hj
  | cons d ds ih =>
    intro i j hj
    cases j with
    | zero => simp [rowsSpec]
    | succ j =>
      have h1 : i + (j + 1) = (i + 1) + j := by omega
      rw [h1]
      simpa [rowsSpec] using ih (i + 1) j (by simpa using hj)

lemma evsSpec_eq :
    ∀ (ds : List DepRecord) (i : Nat),
      evsSpec i ds =
        (List.range' i ds.length).flatMap
          (fun j => [Ev.launch j, Ev.close j]) := by
  intro ds
  induction ds with
  | nil => intro i; simp [evsSpec]
  | cons d ds ih => intro i; simp [evsSpec, List.range'_succ, ih]

lemma failsSpec_none (w : Nat → PageResult) :
    ∀ (ds : List DepRecord) (i : Nat) (acc : List (Nat × Value)),
      (∀ j, j < ds.length →
        (scrapeOne (i + j) (ds.getD j default) (w (i + j))).2 = none) →
      failsSpec w i ds acc = acc := by
  intro ds
  induction ds with
  | nil => intro i acc _; simp [failsSpec]
  | cons d ds ih =>
    intro i acc h
    have h0 := h 0 (by simp)
    simp at h0
    rw [failsSpec, h0]
    exact ih (i + 1) acc (fun j hj => by
      have := h (j + 1) (by simpa using hj)
      simpa [Nat.add_assoc, Nat.add_comm 1 j] using this)

lemma failsSpec_one (w : Nat → PageResult) :
    ∀ (ds : List DepRecord) (i k : Nat) (u : Value),
      i ≤ k → k < i + ds.length →
      (scrapeOne k (ds.getD (k - i) default) (w k)).2 = some (k, u) →
      (∀ j, j < ds.length → ¬ (i + j = k) →
        (scrapeOne (i + j) (ds.getD j default) (w (i + j))).2 = none) →
      failsSpec w i ds [] = [(k, u)] := by
  intro ds
  induction ds with
  | nil => intro i k u h1 h2 _ _; simp at h2; omega
  | cons d ds ih =>
    intro i k u h1 h2 hk hrest
    by_cases hik : i = k
    · subst hik
      have hd : (scrapeOne i d (w i)).2 = some (i, u) := by
        simpa using hk
      rw [failsSpec, hd]
      have : insertFail [] (some (i, u)) = [(i, u)] := by
        simp [insertFail, pyInsertNat]
      rw [this]
      exact failsSpec_none w ds (i + 1) [(i, u)] (fun j hj => by
        have := hrest (j + 1) (by simpa using hj) (by omega)
        simpa [Nat.add_assoc, Nat.add_comm 1 j] using this)
    · have hlt : i < k := by omega
      have h0 : (scrapeOne i d (w i)).2 = none := by
        have := hrest 0 (by simp) (by omega)
        simpa using this
      rw [failsSpec, h0]
      simp only [insertFail]
      have hsub : k - i = (k - (i + 1)) + 1 := by omega
      have hgd : ((d :: ds).getD (k - i) default) =
          ds.getD (k - (i + 1)) default := by
        rw [hsub]; simp
      refine ih (i + 1) k u (by omega) (by simp at h2 ⊢; omega) ?_ ?_
      · rw [← hgd]
        exact hk
      · intro j hj hne
        have := hrest (j + 1) (by simpa using hj) (by omega)
        simpa [Nat.add_assoc, Nat.add_comm 1 j] using this

/-! ## Characterization lemmas for the formatting loop -/

lemma formatPhase_ok :
    ∀ (ds : List DepRecord) (rs : List (List (String × String)))
      (out : List DepRecord),
      formatPhase ds rs = Except.ok out →
      out.length = ds.length ∧
      ∀ j, j < ds.length →
        normalizeOne (ds.getD j default) (rs.getD j []) =
          Except.ok (out.getD j default) := by
  intro ds
  induction ds with
  | nil =>
    intro rs out h
    simp [formatPhase] at h
    subst h
    exact ⟨rfl, fun j hj => by simp at hj⟩
  | cons d ds ih =>
    intro rs out h
    cases rs with
    | nil => simp [formatPhase] at h
    | cons r rs =>
      rw [formatPhase] at h
      cases hn : normalizeOne d r with
      | error e => rw [hn] at h; exact absurd h (by simp)
      | ok d2 =>
        rw [hn] at h
        cases hf : formatPhase ds rs with
        | error e => rw [hf] at h; exact absurd h (by simp)
        | ok rest =>
          rw [hf] at h
          have hout : out = d2 :: rest := by
            cases h; rfl
          subst hout
          obtain ⟨hlen, hcorr⟩ := ih rs rest hf
          refine ⟨by simp [hlen], ?_⟩
          intro j hj
          cases j with
          | zero => simpa using hn
          | succ j => simpa using hcorr j (by simpa using hj)

lemma normalizeOne_url :
    ∀ (d : DepRecord) (r : List (String × String)) (d2 : DepRecord),
      normalizeOne d r = Except.ok d2 → d2.url = d.url := by
  intro d r d2 h
  unfold normalizeOne at h
  repeat' split at h
  all_goals simp_all
  cases h
  rfl

lemma normalizeOne_noVersion :
    ∀ (d : DepRecord) (r : List (String × String)),
      pyGet r "Version" = none →
      normalizeOne d r = Except.error PyError.keyError := by
  intro d r h
  simp [normalizeOne, h]

/-! ## Key membership in built row dicts -/

lemma mem_pyInsert :
    ∀ (q : String × String) (acc : List (String × String)) (k1 v : String),
      q ∈ pyInsert acc k1 v → q.1 = k1 ∨ q ∈ acc := by
  intro q acc k1 v hq
  unfold pyInsert at hq
  split at hq
  · obtain ⟨p, hp, hfq⟩ := List.mem_map.mp hq
    by_cases hpk : p.1 = k1
    · rw [if_pos hpk] at hfq
      left; rw [← hfq]
    · rw [if_neg hpk] at hfq
      right; rw [← hfq]; exact hp
  · rcases List.mem_append.mp hq with h1 | h1
    · right; exact h1
    · left
      have : q = (k1, v) := by simpa using h1
      rw [this]

lemma mem_foldl_pyInsert :
    ∀ (l : List (String × String)) (acc : List (String × String))
      (q : String × String),
      q ∈ l.foldl (fun a p => pyInsert a p.1 p.2) acc →
      (∃ p ∈ l, q.1 = p.1) ∨ q ∈ acc := by
  intro l
  induction l with
  | nil => intro acc q hq; right; simpa using hq
  | cons p l ih =>
    intro acc q hq
    simp only [List.foldl_cons] at hq
    rcases ih (pyInsert acc p.1 p.2) q hq with h1 | h1
    · obtain ⟨p2, hp2, hq2⟩ := h1
      exact Or.inl ⟨p2, by simp [hp2], hq2⟩
    · rcases mem_pyInsert q acc p.1 p.2 h1 with h2 | h2
      · exact Or.inl ⟨p, by simp, h2⟩
      · exact Or.inr h2

lemma pyGet_buildRow_none :
    ∀ (hs : List String) (vs : List String) (k : String),
      ¬ k ∈ hs → pyGet (buildRow hs vs) k = none := by
  intro hs vs k hk
  unfold pyGet
  have hfind : (buildRow hs vs).find? (fun p => p.1 = k) = none := by
    rw [List.find?_eq_none]
    intro q hq
    have := mem_foldl_pyInsert (hs.zip vs) [] q hq
    rcases this with h1 | h1
    · obtain ⟨p, hp, hq1⟩ := h1
      have hmem : p.1 ∈ hs := (List.of_mem_zip hp).1
      simp only [decide_eq_true_eq]
      intro hcon
      exact hk (by rw [← hq1] at hmem; rw [← hcon]; exact hmem)
    · simp at h1
  rw [hfind]
  rfl

/-! ## getD helper lemmas -/

lemma ddGetD_drop {α : Type} (dflt : α) :
    ∀ (l : List α) (n m : Nat),
      (l.drop n).getD m dflt = l.getD (n + m) dflt := by
  intro l
  induction l with
  | nil => intro n m; simp
  | cons a l ih =>
    intro n m
    cases n with
    | zero => simp
    | succ n => rw [Nat.succ_add]; simp [ih n m]

lemma ddGetD_take {α : Type} (dflt : α) :
    ∀ (l : List α) (n m : Nat), m < n →
      (l.take n).getD m dflt = l.getD m dflt := by
  intro l
  induction l with
  | nil => intro n m _; simp
  | cons a l ih =>
    intro n m hm
    cases n with
    | zero => omega
    | succ n =>
      cases m with
      | zero => simp
      | succ m => simpa using ih n m (by omega)

lemma ddGetD_map {α β : Type} (f : α → β) (da : α) (db : β) :
    ∀ (l : List α) (i : Nat), i < l.length →
      (l.map f).getD i db = f (l.getD i da) := by
  intro l
  induction l with
  | nil => intro i hi; simp at hi
  | cons a l ih =>
    intro i hi
    cases i with
    | zero => simp
    | succ i => simpa using ih i (by simpa using hi)

/-! ## Serialization helper lemmas -/

/-- The transformation the spec describes for the JSON sink, stated
as a relation between an input field value and its serialized form. -/
def serializedAs (v w : Value) : Prop :=
  (v = Value.nan → w = Value.str "") ∧
  (∀ y m d, v = Value.date y m d → w = Value.str (isoformat y m d)) ∧
  (∀ s, v = Value.str s → w = v)

lemma serializedAs_serializeValue :
    ∀ v, serializedAs v (serializeValue v) := by
  intro v
  cases v <;> simp [serializedAs, serializeValue]

/-- Whether a value is a Python string. -/
def isStrVal : Value → Bool
  | Value.str _ => true
  | _ => false

lemma isStrVal_serializeValue : ∀ v, isStrVal (serializeValue v) = true := by
  intro v; cases v <;> rfl

/-- Whether all four fields of a record are strings. -/
def strRecord (d : DepRecord) : Bool :=
  isStrVal d.library && isStrVal d.vulnerabilities &&
    isStrVal d.date && isStrVal d.url

lemma strRecord_serializeRecord :
    ∀ d, strRecord (serializeRecord d) = true := by
  intro d
  simp [strRecord, serializeRecord, isStrVal_serializeValue]

lemma all_strRecord_map :
    ∀ (l : List DepRecord),
      (l.map serializeRecord).all strRecord = true := by
  intro l
  rw [List.all_eq_true]
  intro d hd
  obtain ⟨d0, _, hd0⟩ := List.mem_map.mp hd
  rw [← hd0]
  exact strRecord_serializeRecord d0

lemma excelRows_all_str :
    ∀ (l : List DepRecord) (r : Nat),
      (∀ d ∈ l, strRecord d = true) →
      (excelRows r l).all (fun wr => isStrVal wr.2.2) = true := by
  intro l
  induction l with
  | nil => intro r _; simp [excelRows]
  | cons d l ih =>
    intro r h
    have hd := h d (by simp)
    simp only [strRecord, Bool.and_eq_true] at hd
    simp only [excelRows, List.all_cons]
    rw [ih (r + 1) (fun d2 hd2 => h d2 (by simp [hd2]))]
    simp [hd.1.1.1, hd.1.1.2, hd.1.2, hd.2]

lemma scrape_data_ok_format :
    ∀ (deps : List DepRecord) (world : Nat → PageResult) res,
      scrape_data deps world = Except.ok res →
      formatPhase deps (scrapePhase deps world).1 = Except.ok res.1 := by
  intro deps world res h
  cases deps with
  | nil => simp [scrape_data] at h
  | cons d0 dt =>
    simp only [scrape_data] at h
    split at h
    · exact absurd h (by simp)
    · rename_i out heq
      cases h
      simpa using heq

lemma mkDep_fields (row : List Value) :
    (mkDep row).library = row.getD 5 Value.nan ∧
    (mkDep row).vulnerabilities = row.getD 6 Value.nan ∧
    (mkDep row).date = row.getD 8 Value.nan ∧
    (mkDep row).url = row.getD 10 Value.nan := by
  unfold mkDep
  dsimp only
  refine ⟨?_, ?_, ?_, ?_⟩
  · rw [ddGetD_take Value.nan (row.drop 5) 7 0 (by omega), ddGetD_drop]
  · rw [ddGetD_take Value.nan (row.drop 5) 7 1 (by omega), ddGetD_drop]
  · rw [ddGetD_take Value.nan (row.drop 5) 7 3 (by omega), ddGetD_drop]
  · rw [ddGetD_take Value.nan (row.drop 5) 7 5 (by omega), ddGetD_drop]

/-- Whether a pipeline step raised an uncaught exception. -/
def isErr {α : Type} : Except PyError α → Bool
  | Except.error _ => true
  | Except.ok _ => false

/-! ## Concrete demonstration inputs shared by the witnesses -/

/-- A demonstration dependency record as load_excel would build it. -/
def demoDep : DepRecord :=
  ⟨Value.str "foo-bar-1.2.3.jar", Value.str "ov", Value.str "od",
    Value.str "http://example.com/x"⟩

/-- Second demonstration record with a distinct URL. -/
def demoDep2 : DepRecord :=
  ⟨Value.str "baz-2.0.war", Value.str "ov2", Value.str "od2",
    Value.str "http://example.com/y"⟩

/-- Third demonstration record with a distinct URL. -/
def demoDep3 : DepRecord :=
  ⟨Value.str "qux-7.tar.gz", Value.str "ov3", Value.str "od3",
    Value.str "http://example.com/z"⟩

/-- Header labels of a well-formed versions table. -/
def demoHeaders : List String := ["Version", "Vulnerabilities", "Date"]

/-- First-row cells of a well-formed versions table. -/
def demoCells : List (Option String) :=
  [some "9.9.9", some "3 known issues", some "Feb 2, 2024"]

/-- A well-formed versions-table page. -/
def demoGoodPage : PageResult := PageResult.page demoHeaders demoCells

/-- A world in which every page is well formed. -/
def demoGoodWorld : Nat → PageResult := fun _ => demoGoodPage

/-- A world in which every navigation fails. -/
def demoFailWorld : Nat → PageResult := fun _ => PageResult.navFail

/-! ## Claim theorems -/

/-- Claim C3: formatDate returns the absent marker (NaN) when its
input is empty or missing; otherwise it parses with the fixed pattern
abbreviated-month day, comma, 4-digit year, so that the text
Jan 5, 2024 yields the date 2024-01-05; and any nonempty input not
matching that exact pattern — such as the ISO text 2024-01-05 —
raises ValueError (the ParseError of the spec) rather than being
swallowed. -/
theorem claim_C3 :
    formatDate (Value.str "") = Except.ok Value.nan ∧
    formatDate Value.nan = Except.ok Value.nan ∧
    formatDate (Value.str "Jan 5, 2024") =
      Except.ok (Value.date 2024 1 5) ∧
    formatDate (Value.str "2024-01-05") =
      Except.error PyError.valueError ∧
    (∀ s, ¬ s = "" → strptimeBDY s = none →
      formatDate (Value.str s) = Except.error PyError.valueError) := by
  refine ⟨by decide, by decide, by decide, by decide, ?_⟩
  intro s hs hp
  simp [formatDate, hs, hp]

/-- Witness for claim C3: the general mismatch clause applied to the
concrete out-of-pattern text Jan 32, 2024. -/
theorem claim_C3_witness :
    formatDate (Value.str "Jan 32, 2024") =
      Except.error PyError.valueError :=
  claim_C3.2.2.2.2 "Jan 32, 2024" (by decide) (by decide)

/-- Claim C5: formatLibrary returns the absent marker (NaN) when the
original name is empty or missing; otherwise it splits the name on
hyphens, joins all tokens except the last without separators as the
base, takes the extension from the final dot-delimited segment of the
last token, and returns base-version.extension; in particular the
name foo-bar-1.2.3.jar with version 9.9.9 gives foobar-9.9.9.jar,
and a name with no hyphen yields an empty base prefix. -/
theorem claim_C5 :
    (∀ v, formatLibrary (Value.str "") v = Except.ok Value.nan) ∧
    (∀ v, formatLibrary Value.nan v = Except.ok Value.nan) ∧
    formatLibrary (Value.str "foo-bar-1.2.3.jar") "9.9.9" =
      Except.ok (Value.str "foobar-9.9.9.jar") ∧
    formatLibrary (Value.str "abc.jar") "7.7" =
      Except.ok (Value.str "-7.7.jar") ∧
    (∀ s v, ¬ s = "" →
      formatLibrary (Value.str s) v =
        Except.ok (Value.str
          (String.join (pySplit s '-').dropLast ++ "-" ++ v ++ "." ++
            (pySplit ((pySplit s '-').getLastD "") '.').getLastD ""))) := by
  refine ⟨fun v => rfl, fun v => rfl, by decide, by decide, ?_⟩
  intro s v hs
  simp [formatLibrary, hs]

/-- Witness for claim C5: the general splitting clause applied to the
concrete name x-y.z with version 1.0. -/
theorem claim_C5_witness :
    formatLibrary (Value.str "x-y.z") "1.0" =
      Except.ok (Value.str
        (String.join (pySplit "x-y.z" '-').dropLast ++ "-" ++ "1.0" ++
          "." ++
          (pySplit ((pySplit "x-y.z" '-').getLastD "") '.').getLastD "")) :=
  claim_C5.2.2.2.2 "x-y.z" "1.0" (by decide)

/-- An eleven-column header row for the loader examples. -/
def c2Header : List Value := List.replicate 11 (Value.str "h")

/-- An eleven-column data row with distinctive cells at the consumed
columns 5, 6, 8 and 10. -/
def c2DataRow : List Value :=
  [Value.str "a0", Value.str "a1", Value.str "a2", Value.str "a3",
   Value.str "a4", Value.str "foo-bar-1.2.3.jar", Value.str "2 issues",
   Value.str "a7", Value.str "Jan 5, 2024", Value.str "a9",
   Value.str "http://example.com/x"]

/-- A sheet with a header row and exactly one data row. -/
def c2Sheet : List (List Value) := [c2Header, c2DataRow]

/-- Counterexample to claim C2: on a sheet with one header row and
one data row, load_excel yields zero records, not one record per data
row — the code skips the first data row as well (pandas already
consumed the header, and iloc drops one more row). -/
theorem claim_C2_counterexample :
    (load_excel c2Sheet).length = 0 ∧
    ¬ (load_excel c2Sheet).length = c2Sheet.length - 1 := by decide

/-- Claim C2 (amended): the loader reads the first sheet; sheet row 0
is consumed as the header and sheet row 1 is also skipped, so data
extraction starts at sheet row 2, and every sheet row from index 2 on
yields one record in order (a sheet with n rows yields n - 2
records), taking 0-based columns 5 (library), 6 (vulnerabilities),
8 (date) and 10 (url). The width hypothesis keeps the model inside
the regime where pandas NaN-padding matches positional lookup. -/
theorem claim_C2_amended :
    ∀ (sheet : List (List Value)),
      (∀ r ∈ sheet, 11 ≤ r.length) →
      (load_excel sheet).length = sheet.length - 2 ∧
      ∀ i, i < (load_excel sheet).length →
        ((load_excel sheet).getD i default).library =
            (sheet.getD (i + 2) []).getD 5 Value.nan ∧
        ((load_excel sheet).getD i default).vulnerabilities =
            (sheet.getD (i + 2) []).getD 6 Value.nan ∧
        ((load_excel sheet).getD i default).date =
            (sheet.getD (i + 2) []).getD 8 Value.nan ∧
        ((load_excel sheet).getD i default).url =
            (sheet.getD (i + 2) []).getD 10 Value.nan := by
  intro sheet _hw
  constructor
  · simp [load_excel]
  · intro i hi
    have hi2 : i < ((sheet.drop 1).drop 1).length := by
      simpa [load_excel] using hi
    have hmap : (load_excel sheet).getD i default =
        mkDep (((sheet.drop 1).drop 1).getD i []) := by
      simpa [load_excel] using
        ddGetD_map mkDep [] default ((sheet.drop 1).drop 1) i hi2
    have hdrop : ((sheet.drop 1).drop 1).getD i ([] : List Value) =
        sheet.getD (i + 2) [] := by
      rw [ddGetD_drop, ddGetD_drop]
      congr 1
      omega
    rw [hmap, hdrop]
    exact mkDep_fields (sheet.getD (i + 2) [])

/-- A second data row with distinct cells, so the witness sheet has
three rows: header, skipped row, one extracted row. -/
def c2DataRow2 : List Value :=
  [Value.str "b0", Value.str "b1", Value.str "b2", Value.str "b3",
   Value.str "b4", Value.str "baz-2.0.war", Value.str "5 issues",
   Value.str "b7", Value.str "Mar 9, 2023", Value.str "b9",
   Value.str "http://example.com/y"]

/-- A three-row sheet: header, skipped first data row, one consumed
data row. -/
def c2WSheet : List (List Value) := [c2Header, c2DataRow, c2DataRow2]

/-- Witness for claim C2 (amended): on the three-row sheet the loader
yields one record, built from sheet row 2, columns 5, 6, 8, 10. -/
theorem claim_C2_witness :
    (load_excel c2WSheet).length = c2WSheet.length - 2 ∧
    (((load_excel c2WSheet).getD 0 default).library =
        (c2WSheet.getD 2 []).getD 5 Value.nan ∧
      ((load_excel c2WSheet).getD 0 default).vulnerabilities =
        (c2WSheet.getD 2 []).getD 6 Value.nan ∧
      ((load_excel c2WSheet).getD 0 default).date =
        (c2WSheet.getD 2 []).getD 8 Value.nan ∧
      ((load_excel c2WSheet).getD 0 default).url =
        (c2WSheet.getD 2 []).getD 10 Value.nan) :=
  ⟨(claim_C2_amended c2WSheet (by decide)).1,
    (claim_C2_amended c2WSheet (by decide)).2 0 (by decide)⟩

/-- Claim C6: the JSON sink keeps one output record per input record
in order, replaces every absent-marker (NaN) field with the empty
string and every parsed date with its ISO-8601 string, leaves string
values unchanged, and targets the file {today}_dependencies.json for
the current date. -/
theorem claim_C6 :
    ∀ (today : String) (deps : List DepRecord),
      (write_json today deps).1 = today ++ "_dependencies.json" ∧
      (write_json today deps).2.length = deps.length ∧
      ∀ i, i < deps.length →
        serializedAs (deps.getD i default).library
          ((write_json today deps).2.getD i default).library ∧
        serializedAs (deps.getD i default).vulnerabilities
          ((write_json today deps).2.getD i default).vulnerabilities ∧
        serializedAs (deps.getD i default).date
          ((write_json today deps).2.getD i default).date ∧
        serializedAs (deps.getD i default).url
          ((write_json today deps).2.getD i default).url := by
  intro today deps
  refine ⟨rfl, by simp [write_json], ?_⟩
  intro i hi
  have hmap : (write_json today deps).2.getD i default =
      serializeRecord (deps.getD i default) := by
    simpa [write_json] using
      ddGetD_map serializeRecord default default deps i hi
  rw [hmap]
  exact ⟨serializedAs_serializeValue _, serializedAs_serializeValue _,
    serializedAs_serializeValue _, serializedAs_serializeValue _⟩

/-- Demonstration records for the JSON sink, one with a NaN field, a
date field and string fields. -/
def c6Deps : List DepRecord :=
  [⟨Value.nan, Value.str "3", Value.date 2024 1 5,
    Value.str "http://example.com/x"⟩]

/-- Witness for claim C6: on the concrete record list, the date field
of the serialized record is the ISO-8601 string of 2024-01-05. -/
theorem claim_C6_witness :
    ((write_json "20240101" c6Deps).2.getD 0 default).date =
      Value.str (isoformat 2024 1 5) :=
  (((claim_C6 "20240101" c6Deps).2.2 0 (by decide)).2.2.1).2.1
    2024 1 5 rfl

/-- Claim C7: for every record index i of the input, the scrape loop
launches exactly one fresh browser instance and closes it before
moving on, on every exit path of the per-record body — the lifecycle
trace is launch 0, close 0, launch 1, close 1, and so on, for every
world, whether records succeed or fail. -/
theorem claim_C7 :
    ∀ (deps : List DepRecord) (world : Nat → PageResult),
      (scrapePhase deps world).2.2 =
        (List.range deps.length).flatMap
          (fun i => [Ev.launch i, Ev.close i]) := by
  intro deps world
  rw [scrapePhase_eq]
  rw [List.range_eq_range']
  exact evsSpec_eq deps 0

/-- Counterexample to claim C1: for the input record count N = 0 the
scrape phase does not return a list of length 0 — scrape_data raises
an uncaught NameError, because driver.quit() after the loop reads the
loop-local driver variable that was never bound. -/
theorem claim_C1_counterexample :
    scrape_data [] (fun _ => PageResult.navFail) =
      Except.error PyError.nameError := by decide

/-- Claim C1 (amended): the scrape loop produces exactly one raw
outcome per input record, so its collected row list always has length
N; and whenever scrape_data returns normally (which it does not for
N = 0, where the trailing driver.quit() raises NameError), the
normalize phase produces exactly one updated record per input record
in the same order: the returned list has length N and its i-th entry
is the normalization of the i-th input record with the i-th raw
outcome. -/
theorem claim_C1_amended :
    ∀ (deps : List DepRecord) (world : Nat → PageResult),
      (scrapePhase deps world).1.length = deps.length ∧
      ∀ res, scrape_data deps world = Except.ok res →
        res.1.length = deps.length ∧
        ∀ i, i < deps.length →
          normalizeOne (deps.getD i default)
              ((scrapePhase deps world).1.getD i []) =
            Except.ok (res.1.getD i default) := by
  intro deps world
  constructor
  · rw [scrapePhase_eq]
    exact rowsSpec_length world deps 0
  · intro res h
    have hfmt := scrape_data_ok_format deps world res h
    obtain ⟨hlen, hcorr⟩ := formatPhase_ok deps _ res.1 hfmt
    exact ⟨hlen, hcorr⟩

/-- The output of the demonstration one-record successful run. -/
def c1Res : List DepRecord × List (Nat × Value) × List Ev :=
  ([⟨Value.str "foobar-9.9.9.jar", Value.str "3", Value.date 2024 2 2,
      Value.str "http://example.com/x"⟩],
    [], [Ev.launch 0, Ev.close 0])

/-- Witness for claim C1 (amended): a concrete one-record run returns
normally with one output record, which is the normalization of the
input record with the collected raw outcome. -/
theorem claim_C1_witness :
    c1Res.1.length = [demoDep].length ∧
    normalizeOne ([demoDep].getD 0 default)
        ((scrapePhase [demoDep] demoGoodWorld).1.getD 0 []) =
      Except.ok (c1Res.1.getD 0 default) :=
  ⟨((claim_C1_amended [demoDep] demoGoodWorld).2 c1Res (by decide)).1,
    ((claim_C1_amended [demoDep] demoGoodWorld).2 c1Res (by decide)).2
      0 (by decide)⟩

/-- Claim C8: whenever scrape_data returns, the url field of every
record survives the pipeline unchanged: the normalization step
overwrites only library, vulnerabilities and date, so the i-th output
record still holds the i-th loaded url — for every world, including
worlds in which records fail to scrape. -/
theorem claim_C8 :
    ∀ (deps : List DepRecord) (world : Nat → PageResult) res,
      scrape_data deps world = Except.ok res →
      res.1.length = deps.length ∧
      ∀ i, i < deps.length →
        (res.1.getD i default).url = (deps.getD i default).url := by
  intro deps world res h
  have hfmt := scrape_data_ok_format deps world res h
  obtain ⟨hlen, hcorr⟩ := formatPhase_ok deps _ res.1 hfmt
  refine ⟨hlen, ?_⟩
  intro i hi
  exact normalizeOne_url _ _ _ (hcorr i hi)

/-- The output of the demonstration one-record run in which the
navigation fails: the record keeps its original url. -/
def c8Res : List DepRecord × List (Nat × Value) × List Ev :=
  ([⟨Value.str "foobar-.jar", Value.nan, Value.nan,
      Value.str "http://example.com/x"⟩],
    [(0, Value.str "http://example.com/x")],
    [Ev.launch 0, Ev.close 0])

/-- Witness for claim C8: in a run where the only record fails to
scrape, the output record still holds the loaded url. -/
theorem claim_C8_witness :
    (c8Res.1.getD 0 default).url = ([demoDep].getD 0 default).url :=
  (claim_C8 [demoDep] demoFailWorld c8Res (by decide)).2 0 (by decide)

/-- Claim C4: if record k fails during navigation or element lookup
and every other record scrapes cleanly, then the loop records the
default outcome with empty Version, Vulnerabilities and Date raw
fields for record k, logs exactly one failure — index k mapped to
record k of the input and its url — and still produces one raw
outcome for every record, continuing past the failure without a
retry. -/
theorem claim_C4 :
    ∀ (deps : List DepRecord) (world : Nat → PageResult) (k : Nat),
      k < deps.length →
      world k = PageResult.navFail →
      (∀ j, j < deps.length → ¬ j = k →
        ∃ hs cs, world j = PageResult.page hs cs ∧
          cs.length ≤ hs.length) →
      (scrapePhase deps world).2.1 =
        [(k, (deps.getD k default).url)] ∧
      (scrapePhase deps world).1.getD k [] =
        [("Version", ""), ("Vulnerabilities", ""), ("Date", "")] ∧
      (scrapePhase deps world).1.length = deps.length := by
  intro deps world k hk hw hok
  refine ⟨?_, ?_, ?_⟩
  · rw [scrapePhase_eq]
    apply failsSpec_one world deps 0 k ((deps.getD k default).url)
    · omega
    · simpa using hk
    · have hz : k - 0 = k := by omega
      rw [hz, hw]
      simp [scrapeOne]
    · intro j hj hne
      have hne2 : ¬ j = k := by omega
      obtain ⟨hs, cs, hpage, hlen⟩ := hok j hj hne2
      have hz : 0 + j = j := by omega
      rw [hz, hpage]
      simp [scrapeOne, hlen]
  · rw [scrapePhase_eq]
    have := rowsSpec_getD world deps 0 k hk
    simp only [Nat.zero_add] at this
    rw [this, hw]
    simp [scrapeOne, defaultRow]
  · rw [scrapePhase_eq]
    exact rowsSpec_length world deps 0

/-- A three-record demonstration input for the failure-logging
scenario of the spec. -/
def demoDeps3 : List DepRecord := [demoDep, demoDep2, demoDep3]

/-- A world in which exactly the page of record 2 fails. -/
def demoWorld3 : Nat → PageResult :=
  fun j => if j = 2 then PageResult.navFail else demoGoodPage

/-- Witness for claim C4: with three records of which exactly record
2 fails, the failure log is exactly index 2 mapped to the third url,
the third raw outcome is the default empty row, and all three
records got an outcome. -/
theorem claim_C4_witness :
    (scrapePhase demoDeps3 demoWorld3).2.1 =
      [(2, (demoDeps3.getD 2 default).url)] ∧
    (scrapePhase demoDeps3 demoWorld3).1.getD 2 [] =
      [("Version", ""), ("Vulnerabilities", ""), ("Date", "")] ∧
    (scrapePhase demoDeps3 demoWorld3).1.length = demoDeps3.length :=
  claim_C4 demoDeps3 demoWorld3 2 (by decide) (by decide)
    (fun j _ hne =>
      ⟨demoHeaders, demoCells,
        by simp [demoWorld3, hne, demoGoodPage], by decide⟩)

/-- Claim C10: if the page of some record scrapes without an
exception (its first row has no more cells than headers) but its
header labels do not include the exact key Version, then the
formatting phase raises an uncaught KeyError when reading the raw
outcome, aborting the whole of scrape_data instead of downgrading the
record to an empty-field outcome; the per-record recovery does not
even log that record (nothing is added to failed_url), because it
applies only to exceptions raised inside the browser try block. -/
theorem claim_C10 :
    ∀ (deps : List DepRecord) (world : Nat → PageResult) (i : Nat)
      (hs : List String) (cs : List (Option String)),
      i < deps.length →
      world i = PageResult.page hs cs →
      cs.length ≤ hs.length →
      ¬ "Version" ∈ hs →
      isErr (scrape_data deps world) = true ∧
      (scrapeOne i (deps.getD i default) (world i)).2 = none := by
  intro deps world i hs cs hi hpage hlen hver
  constructor
  · cases hres : scrape_data deps world with
    | error e => rfl
    | ok res =>
      exfalso
      have hfmt := scrape_data_ok_format deps world res hres
      obtain ⟨_, hcorr⟩ := formatPhase_ok deps _ res.1 hfmt
      have hrow : (scrapePhase deps world).1.getD i [] =
          buildRow hs (cs.map readCell) := by
        rw [scrapePhase_eq]
        have := rowsSpec_getD world deps 0 i hi
        simp only [Nat.zero_add] at this
        rw [this, hpage]
        simp [scrapeOne, hlen]
      have hc := hcorr i hi
      rw [hrow, normalizeOne_noVersion _ _
        (pyGet_buildRow_none hs (cs.map readCell) "Version" hver)] at hc
      exact absurd hc (by simp)
  · rw [hpage]
    simp [scrapeOne, hlen]

/-- A page that scrapes cleanly but whose header row lacks the label
Version. -/
def c10Page : PageResult :=
  PageResult.page ["V2", "Date", "Vulnerabilities"] [some "x"]

/-- Witness for claim C10: a one-record run against that page aborts
with an uncaught error, and the record is not logged as a failure. -/
theorem claim_C10_witness :
    isErr (scrape_data [demoDep] (fun _ => c10Page)) = true ∧
    (scrapeOne 0 ([demoDep].getD 0 default)
        ((fun _ => c10Page) 0)).2 = none :=
  claim_C10 [demoDep] (fun _ => c10Page) 0
    ["V2", "Date", "Vulnerabilities"] [some "x"]
    (by decide) rfl (by decide) (by decide)

/-- Claim C9: write_json rewrites the record dicts it shares with its
caller (it copies only the outer list), so in a successful run the
spreadsheet sink that runs afterwards receives exactly the
serialized record list of the JSON sink — every absent marker already
collapsed to the empty string and every date already an ISO-8601
string: all cell values written to the spreadsheet are plain
strings. -/
theorem claim_C9 :
    ∀ (sheet : List (List Value)) (world : Nat → PageResult)
      (today : String) res,
      run sheet world today = Except.ok res →
      res.2 = write_excel today res.1.2 ∧
      res.1.2.all strRecord = true ∧
      (res.2.2.all (fun wr => isStrVal wr.2.2)) = true := by
  intro sheet world today res h
  cases hs : scrape_data (load_excel sheet) world with
  | error e =>
    rw [run, hs] at h
    exact absurd h (by simp)
  | ok trip =>
    obtain ⟨deps2, fl, ev⟩ := trip
    rw [run, hs] at h
    cases h
    refine ⟨rfl, ?_, ?_⟩
    · simpa [write_json] using all_strRecord_map deps2
    · have hall := all_strRecord_map deps2
      rw [List.all_eq_true] at hall
      simpa [write_excel, write_json] using
        excelRows_all_str (deps2.map serializeRecord) 3 hall

/-- A three-row input sheet for a complete demonstration run. -/
def demoSheet : List (List Value) := [c2Header, c2Header, c2DataRow]

/-- The output of the complete demonstration run. -/
def c9Res :
    (String × List DepRecord) × (String × List (Nat × Nat × Value)) :=
  ((run demoSheet demoGoodWorld "20240101").toOption).getD default

/-- Witness for claim C9: in the concrete successful run, the
spreadsheet sink receives the serialized record list (the excel
output equals write_excel applied to the JSON record list) and every
value it writes is a plain string. -/
theorem claim_C9_witness :
    c9Res.2 = write_excel "20240101" c9Res.1.2 ∧
    c9Res.1.2.all strRecord = true ∧
    (c9Res.2.2.all (fun wr => isStrVal wr.2.2)) = true :=
  claim_C9 demoSheet demoGoodWorld "20240101" c9Res (by decide)

end DDSC
